import Mathlib

/-!
Shallow embedding of the SME website generator backend
(`backend/app`): the job pipeline (`main.py`, `orchestrator.py`), the AI
data normalizer (`services/ai_engine.py`), the scrape fan-in
(`services/scraper.py`), the Vercel deployer (`services/deployer.py`) and
the in-memory job store (`services/job_store.py`), together with theorems
settling the specification claims about them.

External collaborators (the Anthropic API, the JSON decoder of the Python
standard library, HTTP transports) are modelled at their interface
boundary: an AI call is an `Except String String` outcome, the JSON
decoder is a parameter `jloads : String -> Option JVal`, and an HTTP
response is its status code plus decoded body.
-/

set_option autoImplicit false

/-! ## Python value model

`JVal` models the values a decoded JSON document (a Python `dict` /
`list` / scalar tree) can take; `truthy` models Python truthiness on
those values. -/

/-- A decoded JSON value as held by the Python code (`dict` values are
association lists in document order, numbers are modelled as integers). -/
inductive JVal where
  | jnull : JVal
  | jbool : Bool → JVal
  | jnum : Int → JVal
  | jstr : String → JVal
  | jarr : List JVal → JVal
  | jobj : List (String × JVal) → JVal

/-- Python truthiness of a decoded JSON value: `None`, `False`, `0`, `""`,
`[]` and `\x7b\x7d` are falsy, everything else is truthy. -/
def JVal.truthy : JVal → Bool
  | .jnull => false
  | .jbool b => b
  | .jnum n => n != 0
  | .jstr s => s != ""
  | .jarr xs => !xs.isEmpty
  | .jobj fields => !fields.isEmpty

/-- Python `dict.get(k)` on a decoded JSON object: the first binding of
the key, or `none` when the key is absent. -/
def jget (fields : List (String × JVal)) (k : String) : Option JVal :=
  fields.lookup k

/-- Truthiness of `d.get(k)` (absent keys behave like `None`). -/
def jgetTruthy (fields : List (String × JVal)) (k : String) : Bool :=
  match jget fields k with
  | some v => v.truthy
  | none => false

/-- Python truthiness of an optional string field (`None` and `""` are
falsy). -/
def optStrTruthy : Option String → Bool
  | none => false
  | some s => s ≠ ""

/-- Rendering of a `JVal` as the string a typed `str` field receives when
the Python code assigns a decoded value into it (the gap-fill merge
assigns without validation; every claim instance assigns actual
strings, for which this is the identity). -/
def JVal.asPyStr : JVal → String
  | .jnull => "None"
  | .jbool b => if b then "True" else "False"
  | .jnum n => toString n
  | .jstr s => s
  | .jarr _ => "list"
  | .jobj _ => "dict"

/-- Elementwise view of a raw string list value assigned into a
`list[str]` field without validation (actual string lists pass through
unchanged). -/
def JVal.asPyStrList : JVal → List String
  | .jarr xs => xs.map JVal.asPyStr
  | v => [v.asPyStr]

/-! ## Python string helpers

Faithful models of the `str` operations the source uses:
`find` / `rfind`, slicing with negative indices, and `strip`. -/

/-- Python `str.find`: index of the first occurrence of `needle` in
`hay`, as an `Option` (`none` stands for Python's `-1`). -/
def pyFind (needle : List Char) : List Char → Option Nat
  | [] => if needle = [] then some 0 else none
  | c :: rest =>
    if needle.isPrefixOf (c :: rest) then some 0
    else (pyFind needle rest).map (· + 1)

/-- Python `str.find(needle, start)`: first occurrence at or after
`start`. -/
def pyFindFrom (needle : List Char) (hay : List Char) (start : Nat) : Option Nat :=
  (pyFind needle (hay.drop start)).map (· + start)

/-- Python slice `s[a:b]` with the clamping and negative-index rules of
Python (`-1` as an end index drops the final character). -/
def pySlice (l : List Char) (a b : Int) : List Char :=
  let n : Int := l.length
  let clamp : Int → Nat := fun i =>
    if i < 0 then (n + i).toNat else min i.toNat l.length
  (l.take (clamp b)).drop (clamp a)

/-- Python `str.strip()`: remove leading and trailing whitespace. -/
def pyStrip (l : List Char) : List Char :=
  ((l.dropWhile Char.isWhitespace).reverse.dropWhile Char.isWhitespace).reverse

/-- Python `str.rfind(c)`: index of the last occurrence of the character,
as an `Option` (`none` stands for `-1`). -/
def pyRfindChar (c : Char) (l : List Char) : Option Nat :=
  (pyFind [c] l.reverse).map (fun i => l.length - 1 - i)

/-! ## Data model (`models/schemas.py`) -/

/-- `JobStatus` — lifecycle status of a website generation job. -/
inductive JobStatus where
  | pending | scraping | extracting | generating | deploying | completed | failed
deriving DecidableEq

/-- `BusinessType` — business classification used for template choice. -/
inductive BusinessType where
  | restaurant | trades | professional | retail | creative | health | general
deriving DecidableEq

/-- `ContactInfo` — optional contact block. -/
structure ContactInfo where
  phone : Option String
  email : Option String
  address : Option String
  website : Option String
deriving DecidableEq

/-- `SocialMedia` — per-platform optional URLs. -/
structure SocialMedia where
  facebook : Option String
  instagram : Option String
  twitter : Option String
  linkedin : Option String
  youtube : Option String
deriving DecidableEq

/-- `Service` — one service offered by the business. -/
structure Service where
  name : String
  description : Option String
  price : Option String
  icon : Option String
deriving DecidableEq

/-- `Testimonial` — one customer review. -/
structure Testimonial where
  quote : String
  author : String
  rating : Option Int
  source : Option String
  date : Option String
deriving DecidableEq

/-- `BusinessHours` — weekly opening hours. -/
structure BusinessHours where
  monday : Option String
  tuesday : Option String
  wednesday : Option String
  thursday : Option String
  friday : Option String
  saturday : Option String
  sunday : Option String
deriving DecidableEq

/-- `ExtractedBusinessData` — the canonical normalized business profile. -/
structure ExtractedBusinessData where
  business_name : String
  tagline : Option String
  description_short : Option String
  description_long : Option String
  business_type : BusinessType
  year_established : Option String
  services : List Service
  unique_selling_points : List String
  contact : ContactInfo
  social_media : SocialMedia
  hours : Option BusinessHours
  testimonials : List Testimonial
  rating : Option Int
  review_count : Option Int
  images : List String
  logo_url : Option String
  data_quality_score : Int
  sources_used : List String
  missing_fields : List String
deriving DecidableEq

/-- Default `ContactInfo` (all fields `None`), as in the schema. -/
def ContactInfo.default : ContactInfo := ⟨none, none, none, none⟩

/-- Default `SocialMedia` (all fields `None`), as in the schema. -/
def SocialMedia.default : SocialMedia := ⟨none, none, none, none, none⟩

/-- `ScrapedSource` — result of one connector invocation. -/
structure ScrapedSource where
  source : String
  success : Bool
  data : Option JVal
  error : Option String

/-- `ScrapeResult` — all connector records plus the merged raw payload
map (insertion-ordered, keyed by source tag). -/
structure ScrapeResult where
  sources : List ScrapedSource
  raw_data : List (String × JVal)

/-- `GeneratedSite` — the rendered website artifact. -/
structure GeneratedSite where
  html : String
  css : Option String
  js : Option String
  assets : List String
  template_used : String
  sections_included : List String
  generation_time_ms : Nat
deriving DecidableEq

/-- `DeploymentResult` — one hosting deployment. DNS records are kept as
(type, name, value) triples. -/
structure DeploymentResult where
  deployment_id : String
  url : String
  production_url : String
  status : String
  dns_records : Option (List (String × String × String))
deriving DecidableEq

/-- `JobCreateRequest` — immutable job input. -/
structure JobCreateRequest where
  business_name : String
  location : Option String
  website_url : Option String
  facebook_url : Option String
  instagram_url : Option String
  client_email : Option String
  template_preference : Option String
deriving DecidableEq

/-- `JobProgress` — one progress event (stage tag, message, percent).
Wall-clock timestamps are outside the model. -/
structure JobProgress where
  stage : String
  message : String
  progress_percent : Int
deriving DecidableEq

/-- `Job` — the stored job record (`Job` in `schemas.py`). Creation and
update timestamps are outside the model. -/
structure JobRec where
  id : String
  status : JobStatus
  request : JobCreateRequest
  progress : List JobProgress
  current_stage : Option String
  scrape_result : Option ScrapeResult
  extracted_data : Option ExtractedBusinessData
  generated_site : Option GeneratedSite
  deployment : Option DeploymentResult
  error : Option String

/-! ## AI engine (`services/ai_engine.py`)

The Anthropic API call is modelled at its boundary as an
`Except String String` (raised exception or returned message text); the
standard-library JSON decoder is a parameter
`jloads : String → Option JVal` (`none` models `json.JSONDecodeError`).
Python exceptions inside the conversion code are modelled with
`Except String`. -/

namespace AIEngineService

/-- The fenced-code-block extraction step of `_parse_json_response`: cut
out the body of a ```` ```json ```` or ```` ``` ```` block when one is
present (an unterminated fence ends the slice at Python's `-1`), then
strip whitespace. -/
def stripCodeFences (content : String) : List Char :=
  let cs := content.toList
  match pyFind ("```json".toList) cs with
  | some s0 =>
    let start := s0 + 7
    let stop : Int := match pyFindFrom ("```".toList) cs start with
      | some e => (e : Int)
      | none => -1
    pyStrip (pySlice cs start stop)
  | none =>
    match pyFind ("```".toList) cs with
    | some s0 =>
      let start := s0 + 3
      let stop : Int := match pyFindFrom ("```".toList) cs start with
        | some e => (e : Int)
        | none => -1
      pyStrip (pySlice cs start stop)
    | none => cs

/-- `_parse_json_response`: strip a fenced code block if present, strip
whitespace, decode; on a decode error salvage by truncating to the last
closing brace; on unrecoverable failure return the empty object. -/
def parse_json_response (jloads : String → Option JVal) (content : String) : JVal :=
  let cs := pyStrip (stripCodeFences content)
  match jloads (String.mk cs) with
  | some v => v
  | none =>
    match pyRfindChar '\x7d' cs with
    | some last_brace =>
      if last_brace > 0 then
        match jloads (String.mk (cs.take (last_brace + 1))) with
        | some v => v
        | none => JVal.jobj []
      else JVal.jobj []
    | none => JVal.jobj []

/-- `BusinessType(value)`: enum lookup by value string (`none` models the
`ValueError` for an unknown value). -/
def businessTypeOfValue : String → Option BusinessType
  | "restaurant" => some .restaurant
  | "trades" => some .trades
  | "professional" => some .professional
  | "retail" => some .retail
  | "creative" => some .creative
  | "health" => some .health
  | "general" => some .general
  | _ => none

/-- Reading a decoded value into a required `str` field of a pydantic
model (a non-string raises a validation error). -/
def asStr : JVal → Except String String
  | .jstr s => .ok s
  | _ => .error "ValidationError: str expected"

/-- Reading a decoded value into an `Optional[str]` field (`null` and an
absent key give `None`; a non-string raises). -/
def asOptStr : Option JVal → Except String (Option String)
  | none => .ok none
  | some .jnull => .ok none
  | some (.jstr s) => .ok (some s)
  | some _ => .error "ValidationError: str expected"

/-- Reading a decoded value into an `Optional` numeric field. -/
def asOptNum : Option JVal → Except String (Option Int)
  | none => .ok none
  | some .jnull => .ok none
  | some (.jnum n) => .ok (some n)
  | some _ => .error "ValidationError: number expected"

/-- Python iteration over a decoded value: a list yields its elements, a
string yields its characters, a dict yields its keys, anything else
raises `TypeError`. -/
def pyIter : JVal → Except String (List JVal)
  | .jarr xs => .ok xs
  | .jstr s => .ok (s.toList.map (fun c => JVal.jstr (String.mk [c])))
  | .jobj fields => .ok (fields.map (fun p => JVal.jstr p.1))
  | _ => .error "TypeError: not iterable"

/-- One `Service(...)` construction from a decoded dict inside
`_to_business_data` (`name` defaults to `"Service"` when absent). -/
def serviceOfDict (s : List (String × JVal)) : Except String Service := do
  let name ← match jget s "name" with
    | none => .ok "Service"
    | some v => asStr v
  let description ← asOptStr (jget s "description")
  let icon ← asOptStr (jget s "icon")
  .ok ⟨name, description, none, icon⟩

/-- The services loop of `_to_business_data`: dict entries become
`Service` records, plain strings become name-only services, other
elements are skipped. -/
def parseServices (v : Option JVal) : Except String (List Service) := do
  let elems ← match v with
    | none => .ok []
    | some w => pyIter w
  elems.foldlM (fun acc s =>
    match s with
    | .jobj d => do
      let sv ← serviceOfDict d
      .ok (acc ++ [sv])
    | .jstr nm => .ok (acc ++ [Service.mk nm none none none])
    | _ => .ok acc) []

/-- One `Testimonial(...)` construction from a decoded dict (quote falls
back to `"text"` then `""`; author falls back to `"author_name"` then
`"Customer"`). -/
def testimonialOfDict (t : List (String × JVal)) : Except String Testimonial := do
  let quote ← match jget t "quote" with
    | some v => asStr v
    | none => match jget t "text" with
      | some v => asStr v
      | none => .ok ""
  let author ← match jget t "author" with
    | some v => asStr v
    | none => match jget t "author_name" with
      | some v => asStr v
      | none => .ok "Customer"
  let rating ← asOptNum (jget t "rating")
  let source ← asOptStr (jget t "source")
  .ok ⟨quote, author, rating, source, none⟩

/-- The testimonials loop of `_to_business_data` (non-dict elements are
skipped). -/
def parseTestimonials (v : Option JVal) : Except String (List Testimonial) := do
  let elems ← match v with
    | none => .ok []
    | some w => pyIter w
  elems.foldlM (fun acc t =>
    match t with
    | .jobj d => do
      let tv ← testimonialOfDict d
      .ok (acc ++ [tv])
    | _ => .ok acc) []

/-- Reading a value expected to be a decoded dict (`.get` on a non-dict
raises `AttributeError`); an absent key gives the empty dict default. -/
def asDict : Option JVal → Except String (List (String × JVal))
  | none => .ok []
  | some (.jobj fields) => .ok fields
  | some _ => .error "AttributeError: get"

/-- Reading a decoded value into a `list[str]` field. -/
def asStrList (v : Option JVal) : Except String (List String) :=
  match v with
  | none => .ok []
  | some (.jarr xs) => xs.foldlM (fun acc x => do
      let s ← asStr x
      .ok (acc ++ [s])) []
  | some _ => .error "ValidationError: list of str expected"

/-- `_to_business_data`: convert the extracted dict into the canonical
profile. Keys absent from the dict fall back to the defaults of the
source (`"Business"`, quality score 50, sources from the raw-data keys);
shape errors surface as `Except.error` (a raised exception). -/
def to_business_data (extracted : JVal) (scrape_result : ScrapeResult) :
    Except String ExtractedBusinessData := do
  let fields ← match extracted with
    | .jobj fs => .ok fs
    | _ => Except.error "AttributeError: get"
  let business_type ← match jget fields "business_type" with
    | some v =>
      if v.truthy then
        match v with
        | .jstr s => .ok ((businessTypeOfValue s).getD BusinessType.general)
        | .jarr _ => Except.error "TypeError: unhashable"
        | .jobj _ => Except.error "TypeError: unhashable"
        | _ => .ok BusinessType.general
      else .ok BusinessType.general
    | none => .ok BusinessType.general
  let services ← parseServices (jget fields "services")
  let testimonials ← parseTestimonials (jget fields "testimonials")
  let contact_data ← asDict (jget fields "contact")
  let phone ← asOptStr (jget contact_data "phone")
  let email ← asOptStr (jget contact_data "email")
  let address ← asOptStr (jget contact_data "address")
  let website ← asOptStr (jget contact_data "website")
  let social_data ← asDict (jget fields "social_media")
  let facebook ← asOptStr (jget social_data "facebook")
  let instagram ← asOptStr (jget social_data "instagram")
  let twitter ← asOptStr (jget social_data "twitter")
  let linkedin ← asOptStr (jget social_data "linkedin")
  let hours_data ← asDict (jget fields "hours")
  let hours ← if hours_data.isEmpty then .ok none else do
    let monday ← asOptStr (jget hours_data "monday")
    let tuesday ← asOptStr (jget hours_data "tuesday")
    let wednesday ← asOptStr (jget hours_data "wednesday")
    let thursday ← asOptStr (jget hours_data "thursday")
    let friday ← asOptStr (jget hours_data "friday")
    let saturday ← asOptStr (jget hours_data "saturday")
    let sunday ← asOptStr (jget hours_data "sunday")
    .ok (some (BusinessHours.mk monday tuesday wednesday thursday friday saturday sunday))
  let business_name ← match jget fields "business_name" with
    | none => .ok "Business"
    | some v => asStr v
  let tagline ← asOptStr (jget fields "tagline")
  let description_short ← asOptStr (jget fields "description_short")
  let description_long ← asOptStr (jget fields "description_long")
  let year_established ← asOptStr (jget fields "year_established")
  let unique_selling_points ← asStrList (jget fields "unique_selling_points")
  let rating ← asOptNum (jget fields "rating")
  let review_count ← asOptNum (jget fields "review_count")
  let data_quality_score ← match jget fields "data_quality_score" with
    | none => .ok (50 : Int)
    | some (.jnum n) => .ok n
    | some _ => Except.error "ValidationError: int expected"
  let sources_used ← match jget fields "sources_used" with
    | none => .ok (scrape_result.raw_data.map Prod.fst)
    | some v => asStrList (some v)
  let missing_fields ← asStrList (jget fields "missing_fields")
  .ok { business_name := business_name
      , tagline := tagline
      , description_short := description_short
      , description_long := description_long
      , business_type := business_type
      , year_established := year_established
      , services := services
      , unique_selling_points := unique_selling_points
      , contact := ⟨phone, email, address, website⟩
      , social_media := ⟨facebook, instagram, twitter, linkedin, none⟩
      , hours := hours
      , testimonials := testimonials
      , rating := rating
      , review_count := review_count
      , images := []
      , logo_url := none
      , data_quality_score := data_quality_score
      , sources_used := sources_used
      , missing_fields := missing_fields }

/-- The minimal fallback profile returned by `extract_business_data` when
any exception escapes the extraction call or conversion. -/
def minimalProfile (business_name : String) : ExtractedBusinessData :=
  { business_name := business_name
  , tagline := none
  , description_short := none
  , description_long := none
  , business_type := .general
  , year_established := none
  , services := []
  , unique_selling_points := []
  , contact := ContactInfo.default
  , social_media := SocialMedia.default
  , hours := none
  , testimonials := []
  , rating := none
  , review_count := none
  , images := []
  , logo_url := none
  , data_quality_score := 0
  , sources_used := []
  , missing_fields := ["all"] }

/-- `extract_business_data`: call the model (outcome given as
`callResult`), parse the response, convert it; any raised exception is
absorbed into the minimal profile. -/
def extract_business_data (jloads : String → Option JVal)
    (callResult : Except String String)
    (scrape_result : ScrapeResult) (business_name : String) :
    ExtractedBusinessData :=
  match callResult with
  | .error _ => minimalProfile business_name
  | .ok content =>
    match to_business_data (parse_json_response jloads content) scrape_result with
    | .ok d => d
    | .error _ => minimalProfile business_name

/-- `getattr(data, f, None)` truthiness, per field name, on the profile
model (unknown names give the `None` default, hence falsy). -/
def getattrTruthy (d : ExtractedBusinessData) (f : String) : Bool :=
  match f with
  | "business_name" => d.business_name != ""
  | "tagline" => optStrTruthy d.tagline
  | "description_short" => optStrTruthy d.description_short
  | "description_long" => optStrTruthy d.description_long
  | "business_type" => true
  | "year_established" => optStrTruthy d.year_established
  | "services" => !d.services.isEmpty
  | "unique_selling_points" => !d.unique_selling_points.isEmpty
  | "contact" => true
  | "social_media" => true
  | "hours" => d.hours.isSome
  | "testimonials" => !d.testimonials.isEmpty
  | "rating" => match d.rating with
    | none => false
    | some r => r != 0
  | "review_count" => match d.review_count with
    | none => false
    | some n => n != 0
  | "images" => !d.images.isEmpty
  | "logo_url" => optStrTruthy d.logo_url
  | "data_quality_score" => d.data_quality_score != 0
  | "sources_used" => !d.sources_used.isEmpty
  | "missing_fields" => !d.missing_fields.isEmpty
  | _ => false

/-- The simple-field block of `_merge_gap_data`: tagline and the two
descriptions fill only when currently empty and the gap value is truthy
(assignment is unvalidated, modelled by `JVal.asPyStr`). -/
def mergeSimpleFields (data : ExtractedBusinessData)
    (gap_data : List (String × JVal)) : ExtractedBusinessData :=
  let gv : String → String := fun k => ((jget gap_data k).getD .jnull).asPyStr
  let d1 :=
    if jgetTruthy gap_data "tagline" && !optStrTruthy data.tagline then
      { data with tagline := some (gv "tagline") }
    else data
  let d2 :=
    if jgetTruthy gap_data "description_short" && !optStrTruthy d1.description_short then
      { d1 with description_short := some (gv "description_short") }
    else d1
  if jgetTruthy gap_data "description_long" && !optStrTruthy d2.description_long then
    { d2 with description_long := some (gv "description_long") }
  else d2

/-- The gap services comprehension of `_merge_gap_data`: iterate the raw
value, keep only dict elements, build `Service` records. -/
def buildGapServices (v : JVal) : Except String (List Service) := do
  let elems ← pyIter v
  elems.foldlM (fun acc s =>
    match s with
    | .jobj d => do
      let sv ← serviceOfDict d
      .ok (acc ++ [sv])
    | _ => .ok acc) []

/-- The services block of `_merge_gap_data`: when the gap value is truthy
the produced list replaces the current one only if strictly longer. -/
def servicesStep (data : ExtractedBusinessData)
    (gap_data : List (String × JVal)) : Except String ExtractedBusinessData :=
  match jget gap_data "services" with
  | some v =>
    if v.truthy then
      match buildGapServices v with
      | .error e => .error e
      | .ok gap_services =>
        .ok (if gap_services.length > data.services.length then
              { data with services := gap_services }
            else data)
    else .ok data
  | none => .ok data

/-- The USP block of `_merge_gap_data`: fills only when currently empty
(unvalidated assignment, modelled by `JVal.asPyStrList`). -/
def uspsStep (data : ExtractedBusinessData)
    (gap_data : List (String × JVal)) : ExtractedBusinessData :=
  let gl := ((jget gap_data "unique_selling_points").getD .jnull).asPyStrList
  if jgetTruthy gap_data "unique_selling_points"
      && data.unique_selling_points.isEmpty then
    { data with unique_selling_points := gl }
  else data

/-- `_merge_gap_data`: merge the gap response into the profile (mutating
in place), bump the quality score by 15 capped at 100, and refilter
`missing_fields` keeping the names whose attribute is truthy. The
second component records a raised exception; the first component is the
(possibly partially mutated) record the caller still holds in that
case. -/
def merge_gap_data (data : ExtractedBusinessData) (gap : JVal) :
    ExtractedBusinessData × Option String :=
  match gap with
  | .jobj gap_data =>
    let d3 := mergeSimpleFields data gap_data
    match servicesStep d3 gap_data with
    | .error e => (d3, some e)
    | .ok d4 =>
      let d5 := uspsStep d4 gap_data
      let d6 := { d5 with data_quality_score := min 100 (d5.data_quality_score + 15) }
      ({ d6 with missing_fields := d6.missing_fields.filter (fun f => getattrTruthy d6 f) },
       none)
  | _ => (data, some "AttributeError: get")

/-- `fill_gaps`: short-circuit when the quality score is at least 70 and
no fields are missing; otherwise call the model (outcome given as
`callResult`), parse, merge; a raised exception anywhere returns the
record the caller holds (the merge mutates in place, so that is the
partially merged record when the merge itself raised). -/
def fill_gaps (jloads : String → Option JVal)
    (callResult : Except String String)
    (data : ExtractedBusinessData) : ExtractedBusinessData :=
  if data.data_quality_score ≥ 70 ∧ data.missing_fields = [] then data
  else
    match callResult with
    | .error _ => data
    | .ok content => (merge_gap_data data (parse_json_response jloads content)).1

end AIEngineService

/-! ## Scraper (`services/scraper.py`)

A connector invocation is modelled at its boundary: it either raised an
exception (`asyncio.gather(..., return_exceptions=True)` hands the
exception back as a value) or returned a `ScrapedSource`-shaped record;
every connector stamps its own fixed source tag on every record it
returns, so the record carries only the remaining fields. -/

namespace ScraperService

/-- Outcome of one connector task as seen at the fan-in point. -/
inductive ConnOutcome where
  | raised : String → ConnOutcome
  | returned : Bool → Option JVal → Option String → ConnOutcome

/-- `_empty_result`: the record a connector slot gets when its input was
not provided. -/
def empty_result : ConnOutcome := .returned false none (some "Not provided")

/-- The fixed fan-in source order of `scrape_all`. -/
def source_names : List String := ["google", "website", "facebook", "instagram"]

/-- The fan-in loop of `scrape_all`: zip the fixed source names with the
task results; an exception becomes a failure record; a returned record
is appended as-is and contributes to `raw_data` only when it succeeded
with a truthy payload. -/
def scrapeCollect : List (String × ConnOutcome) →
    List ScrapedSource × List (String × JVal)
  | [] => ([], [])
  | (name, o) :: rest =>
    let acc := scrapeCollect rest
    match o with
    | .raised msg => (⟨name, false, none, some msg⟩ :: acc.1, acc.2)
    | .returned success dat err =>
      let src : ScrapedSource := ⟨name, success, dat, err⟩
      match dat with
      | some v =>
        (src :: acc.1,
         if success && v.truthy then (name, v) :: acc.2 else acc.2)
      | none => (src :: acc.1, acc.2)

/-- `scrape_all`: dispatch each of the four connectors (an absent
optional input short-circuits to the `Not provided` record without
invoking the connector, whose would-be outcome is the given parameter),
then fan in. -/
def scrape_all (request : JobCreateRequest)
    (google website facebook instagram : ConnOutcome) : ScrapeResult :=
  let o1 := if optStrTruthy request.location then google else empty_result
  let o2 := if optStrTruthy request.website_url then website else empty_result
  let o3 := if optStrTruthy request.facebook_url then facebook else empty_result
  let o4 := if optStrTruthy request.instagram_url then instagram else empty_result
  let collected := scrapeCollect (List.zip source_names [o1, o2, o3, o4])
  ⟨collected.1, collected.2⟩

end ScraperService

/-! ## Deployer (`services/deployer.py`)

The four outbound Vercel calls are modelled at their boundaries: project
resolution, deployment creation and the status-poll loop as
`Except String` outcomes (their HTTP/JSON internals are single outbound
calls, out of scope), and the domain-configuration call as its HTTP
status code, since `_configure_domain`'s behaviour branches only on
that. -/

namespace VercelDeployer

/-- The deployment record fields `deploy` reads from the Vercel response
dict (`id` is a required key; `url` and `readyState` are read with
`.get`). -/
structure DeployInfo where
  id : String
  url : Option String
  readyState : Option String

/-- `_slugify` character class: lowercase ASCII letters and digits. -/
def isSlugChar (c : Char) : Bool :=
  (c ≥ 'a' && c ≤ 'z') || (c ≥ '0' && c ≤ '9')

/-- The run-collapsing regex substitution of `_slugify`
(`[^a-z0-9]+` → `-`). -/
def collapseRuns (l : List Char) : List Char :=
  (l.foldl
    (fun (acc : List Char × Bool) c =>
      if isSlugChar c then (acc.1 ++ [c], false)
      else if acc.2 then acc
      else (acc.1 ++ ['-'], true))
    ([], false)).1

/-- `_slugify`: lowercase, collapse non-alphanumeric runs to single
dashes, strip a leading and trailing dash, cap at 50 characters. -/
def slugify (name : String) : String :=
  let l := (name.toList.map Char.toLower)
  let l := collapseRuns l
  let l := if l.head? = some '-' then l.tail else l
  let l := if l.getLast? = some '-' then l.dropLast else l
  String.mk (l.take 50)

/-- `_configure_domain`: on a status other than 200/201 the failure is
logged and `None` is returned; otherwise the fixed DNS record list the
caller must configure. -/
def configure_domain (resStatus : Nat) : Option (List (String × String × String)) :=
  if resStatus ≠ 200 ∧ resStatus ≠ 201 then none
  else some [("A", "@", "76.76.21.21"), ("CNAME", "www", "cname.vercel-dns.com")]

/-- `deploy`: slugify the project name, ensure the project, create the
deployment, wait for readiness, then configure the custom domain if one
was requested; an exception from any of the first three steps
propagates, while a failed domain call only leaves `dns_records`
empty. -/
def deploy (project_name : String)
    (ensureOutcome : Except String String)
    (createOutcome : Except String DeployInfo)
    (waitOutcome : Except String DeployInfo)
    (custom_domain : Option String)
    (domainStatus : Nat) : Except String DeploymentResult := do
  let project_slug := slugify project_name
  let _project_id ← ensureOutcome
  let _dep0 ← createOutcome
  let deployment ← waitOutcome
  let dns_records := match custom_domain with
    | some _ => configure_domain domainStatus
    | none => none
  .ok { deployment_id := deployment.id
      , url := "https://" ++ deployment.url.getD ""
      , production_url := "https://" ++ project_slug ++ ".vercel.app"
      , status := deployment.readyState.getD "READY"
      , dns_records := dns_records }

end VercelDeployer

/-! ## Job store (`services/job_store.py`)

The in-memory store is a Python dict keyed by job id, modelled as an
insertion-ordered association list whose keys are unique. -/

namespace JobStore

/-- Python `d[k] = v`: replace the binding in place when the key exists,
append otherwise. -/
def pySetKey : List (String × JobRec) → String → JobRec → List (String × JobRec)
  | [], k, v => [(k, v)]
  | (k', v') :: rest, k, v =>
    if k' = k then (k, v) :: rest else (k', v') :: pySetKey rest k v

/-- `JobStore.create`: `self._jobs[job.id] = job` — unconditional
assignment, no duplicate check. -/
def create (jobs : List (String × JobRec)) (job : JobRec) : List (String × JobRec) :=
  pySetKey jobs job.id job

/-- `JobStore.get`: `self._jobs.get(job_id)`. -/
def get (jobs : List (String × JobRec)) (job_id : String) : Option JobRec :=
  jobs.lookup job_id

/-- `JobStore.update`: same dict assignment as `create` (the timestamp
it also stamps is outside the model). -/
def update (jobs : List (String × JobRec)) (job : JobRec) : List (String × JobRec) :=
  pySetKey jobs job.id job

/-- `JobStore.delete`: remove the binding, reporting whether one
existed. -/
def delete (jobs : List (String × JobRec)) (job_id : String) :
    List (String × JobRec) × Bool :=
  if (jobs.lookup job_id).isSome then
    (jobs.filter (fun p => p.1 ≠ job_id), true)
  else (jobs, false)

/-- The dict invariant: keys are unique. -/
def uniqueKeys (jobs : List (String × JobRec)) : Prop :=
  (jobs.map Prod.fst).Nodup

end JobStore

/-! ## Pipeline (`main.py` and `services/orchestrator.py`)

`process_job`'s interaction with the job store is modelled as the list
of snapshots it stores: every `on_progress` call mutates the job record
(stage + progress log) and stores it; the pipeline outcome is the list
of progress events the stages emitted before returning or raising,
together with the results or the exception message. -/

/-- One pipeline result bundle (`OrchestrationResult`). -/
structure OrchestrationResult where
  scrape_result : ScrapeResult
  extracted_data : ExtractedBusinessData
  generated_site : GeneratedSite

/-- Outcome of one `orchestrator.run` as `process_job` observes it:
either the events emitted plus the results, or the events emitted
before an exception plus its message. -/
inductive RunOutcome where
  | success : List JobProgress → OrchestrationResult → RunOutcome
  | failure : List JobProgress → String → RunOutcome

/-- The `on_progress` closure of `process_job`: set `current_stage`,
append to the progress log (the store update it performs is recorded by
the snapshot functions below). -/
def applyProgress (job : JobRec) (e : JobProgress) : JobRec :=
  { job with current_stage := some e.stage, progress := job.progress ++ [e] }

/-- The job records stored by successive `on_progress` calls. -/
def progressSnapshots (job : JobRec) : List JobProgress → List JobRec
  | [] => []
  | e :: rest =>
    let job' := applyProgress job e
    job' :: progressSnapshots job' rest

/-- The job record after a list of `on_progress` calls. -/
def afterProgress (job : JobRec) (events : List JobProgress) : JobRec :=
  events.foldl applyProgress job

/-- `process_job`: run the orchestrator; on success store the results
and the completed status (one store per progress event, then the final
`on_progress("completed", ...)` update and the closing update); on an
exception store the failed status with the message. The value is the
ordered list of snapshots the job store receives. -/
def process_job (job : JobRec) (run : RunOutcome) : List JobRec :=
  match run with
  | .success events result =>
    let snaps := progressSnapshots job events
    let jobEnd := afterProgress job events
    let jobC := { jobEnd with
      scrape_result := some result.scrape_result
      , extracted_data := some result.extracted_data
      , generated_site := some result.generated_site
      , status := JobStatus.completed }
    let jobC2 := applyProgress jobC ⟨"completed", "Website generated successfully!", 100⟩
    snaps ++ [jobC2, jobC2]
  | .failure events msg =>
    let snaps := progressSnapshots job events
    let jobEnd := afterProgress job events
    let jobF := { jobEnd with status := JobStatus.failed, error := some msg }
    snaps ++ [jobF]

/-- `create_job`: the freshly stored job record (status pending, empty
progress, no results, no error). -/
def newJob (id : String) (request : JobCreateRequest) : JobRec :=
  { id := id
  , status := JobStatus.pending
  , request := request
  , progress := []
  , current_stage := none
  , scrape_result := none
  , extracted_data := none
  , generated_site := none
  , deployment := none
  , error := none }

/-- The progress events `ScraperService.scrape_all` emits. -/
def scraperProgressEvents (successful total : Nat) : List JobProgress :=
  [⟨"scraping", "Scraping data sources...", 10⟩,
   ⟨"scraping", "Scraped " ++ toString successful ++ "/" ++ toString total ++ " sources", 30⟩]

/-- The progress events `extract_business_data` emits (the second fires
only when the model call returned). -/
def extractProgressEvents (callOk : Bool) : List JobProgress :=
  ⟨"extracting", "Analyzing scraped data with AI...", 40⟩ ::
    (if callOk then [⟨"extracting", "Data extracted successfully", 50⟩] else [])

/-- The progress events `fill_gaps` emits past its short-circuit (the
second fires only when the call returned and the merge did not
raise). -/
def gapFillProgressEvents (mergeOk : Bool) : List JobProgress :=
  ⟨"extracting", "Filling data gaps with AI...", 55⟩ ::
    (if mergeOk then [⟨"extracting", "Data gaps filled", 60⟩] else [])

/-- The progress events `WebsiteGeneratorService.generate` emits. -/
def generatorProgressEvents : List JobProgress :=
  [⟨"generating", "Generating website design...", 65⟩,
   ⟨"generating", "Website generated!", 90⟩]

/-- The full ordered event list of one successful `orchestrator.run`
(the gap-fill block runs only when the quality score is below 70 or
fields are missing). -/
def orchestratorSuccessEvents (successful : Nat) (extractCallOk : Bool)
    (gapInvoked gapMergeOk : Bool) : List JobProgress :=
  [⟨"scraping", "Starting data collection...", 5⟩]
    ++ scraperProgressEvents successful 4
    ++ [⟨"extracting", "Analyzing data with AI...", 35⟩]
    ++ extractProgressEvents extractCallOk
    ++ (if gapInvoked then
          ⟨"extracting", "Enhancing data...", 55⟩ :: gapFillProgressEvents gapMergeOk
        else [])
    ++ [⟨"generating", "Creating website design...", 65⟩]
    ++ generatorProgressEvents
    ++ [⟨"completed", "Website ready!", 100⟩]

/-- The precondition checks of the deploy route, in source order:
404 when the job does not exist is handled by the caller lookup; then
400 `Website not yet generated`, then 400 `Already deployed`. `none`
means the request proceeds to the deployer. -/
def deployPrecheck (job : JobRec) : Option String :=
  if job.generated_site.isNone then some "Website not yet generated"
  else if job.deployment.isSome then some "Already deployed"
  else none

/-- `deploy_job` past its prechecks, as the snapshots stored: the
deploying status first, then either the completed record carrying the
deployment or the failed record carrying the error message. A rejected
request stores nothing. -/
def deployJobRun (job : JobRec) (outcome : Except String DeploymentResult) :
    List JobRec :=
  match deployPrecheck job with
  | some _ => []
  | none =>
    let j1 := { job with status := JobStatus.deploying }
    match outcome with
    | .ok dep =>
      [j1, { j1 with deployment := some dep, status := JobStatus.completed }]
    | .error e =>
      let msg := "Deployment failed: " ++ e
      [j1, { j1 with status := JobStatus.failed, error := some msg }]

/-- `get_job_preview` on a found job: 400 when no site has been
generated, otherwise the stored HTML. -/
def getJobPreview (job : JobRec) : Except (Nat × String) String :=
  match job.generated_site with
  | none => .error (400, "Website not yet generated")
  | some site => .ok site.html

/-- The spec invariant of claim C4: the stored error message is non-null
exactly when the status is failed. -/
def errorIffFailed (job : JobRec) : Prop :=
  job.error.isSome ↔ job.status = JobStatus.failed

instance (job : JobRec) : Decidable (errorIffFailed job) := by
  unfold errorIffFailed
  infer_instance

/-! ## Derived values and concrete fixtures

`emptyObjProfile` is the profile `_to_business_data` produces from the
empty dict (every key falling back to its source default); the sample
fixtures below are concrete inputs used to instantiate the claim
theorems. -/

/-- The defaulted profile `_to_business_data` yields for the empty dict:
placeholder name `"Business"`, quality score 50, sources from the
raw-data keys, and no recorded missing fields. -/
def emptyObjProfile (scrape_result : ScrapeResult) : ExtractedBusinessData :=
  { business_name := "Business"
  , tagline := none
  , description_short := none
  , description_long := none
  , business_type := .general
  , year_established := none
  , services := []
  , unique_selling_points := []
  , contact := ContactInfo.default
  , social_media := SocialMedia.default
  , hours := none
  , testimonials := []
  , rating := none
  , review_count := none
  , images := []
  , logo_url := none
  , data_quality_score := 50
  , sources_used := scrape_result.raw_data.map Prod.fst
  , missing_fields := [] }

/-- A concrete job request. -/
def sampleRequest : JobCreateRequest :=
  ⟨"Acme Coffee", some "San Francisco", none, none, none, none, none⟩

/-- A concrete scrape result with one successful source. -/
def sampleScrape : ScrapeResult :=
  ⟨[⟨"google", true, some (.jobj [("name", .jstr "Acme Coffee")]), none⟩],
   [("google", .jobj [("name", .jstr "Acme Coffee")])]⟩

/-- A concrete low-quality profile with two recorded missing fields. -/
def sampleData : ExtractedBusinessData :=
  { business_name := "Acme Coffee"
  , tagline := none
  , description_short := none
  , description_long := none
  , business_type := .restaurant
  , year_established := none
  , services := []
  , unique_selling_points := []
  , contact := ContactInfo.default
  , social_media := SocialMedia.default
  , hours := none
  , testimonials := []
  , rating := none
  , review_count := none
  , images := []
  , logo_url := none
  , data_quality_score := 40
  , sources_used := ["google"]
  , missing_fields := ["tagline", "logo_url"] }

/-- A concrete high-quality profile (score 85, nothing missing). -/
def sampleRichData : ExtractedBusinessData :=
  { sampleData with data_quality_score := 85, missing_fields := [] }

/-- A concrete generated site. -/
def sampleSite : GeneratedSite :=
  ⟨"<html></html>", none, none, [], "tailwind_modern",
   ["navigation", "hero", "services", "about", "contact", "footer"], 1200⟩

/-- A concrete successful pipeline output (a profile of quality 85, so
the run matches an event trace without the gap-fill sub-stage). -/
def sampleResult : OrchestrationResult := ⟨sampleScrape, sampleRichData, sampleSite⟩

/-- A concrete deployment record. -/
def sampleDeployment : DeploymentResult :=
  ⟨"dpl_1", "https://acme-coffee-abc.vercel.app",
   "https://acme-coffee.vercel.app", "READY", none⟩

/-- A job that finished the pipeline successfully (site generated, not
yet deployed, no error). -/
def sampleCompletedJob : JobRec :=
  { newJob "job-1" sampleRequest with
      status := .completed
    , scrape_result := some sampleScrape
    , extracted_data := some sampleData
    , generated_site := some sampleSite }

/-- A freshly created job with no generated site. -/
def jobNoSite : JobRec := newJob "job-2" sampleRequest

/-- A job that already carries a deployment. -/
def jobDeployed : JobRec :=
  { sampleCompletedJob with deployment := some sampleDeployment }

/-- The store snapshots of a deploy retry: a first deploy attempt fails,
then a second attempt is made on the resulting record. -/
def c4RetryTrace : List JobRec :=
  deployJobRun
    ((deployJobRun sampleCompletedJob (Except.error "boom")).getLastD sampleCompletedJob)
    (Except.ok sampleDeployment)

/-- The gap-fill response used to exhibit the `missing_fields` refilter
polarity: it populates exactly the missing `tagline`. -/
def c3Gap : JVal := .jobj [("tagline", .jstr "Your neighborhood espresso bar")]

/-! ## Helper lemmas -/

/-- A progress update never touches the status. -/
theorem applyProgress_status (j : JobRec) (e : JobProgress) :
    (applyProgress j e).status = j.status := rfl

/-- A progress update never touches the error field. -/
theorem applyProgress_error (j : JobRec) (e : JobProgress) :
    (applyProgress j e).error = j.error := rfl

/-- Every snapshot stored by the progress callback keeps the status and
error of the record the pipeline started from. -/
theorem progressSnapshots_fields (events : List JobProgress) (j : JobRec) :
    ∀ x ∈ progressSnapshots j events, x.status = j.status ∧ x.error = j.error := by
  induction events generalizing j with
  | nil => intro x hx; simp [progressSnapshots] at hx
  | cons e rest ih =>
    intro x hx
    simp only [progressSnapshots, List.mem_cons] at hx
    rcases hx with rfl | hx
    · exact ⟨rfl, rfl⟩
    · exact ih (applyProgress j e) x hx

/-- The statuses stored by the progress callback, in order. -/
theorem progressSnapshots_map_status (events : List JobProgress) (j : JobRec) :
    (progressSnapshots j events).map JobRec.status
      = List.replicate events.length j.status := by
  induction events generalizing j with
  | nil => rfl
  | cons e rest ih =>
    simp only [progressSnapshots, List.map_cons, List.length_cons,
      List.replicate_succ]
    rw [ih (applyProgress j e), applyProgress_status]

/-- The record after a run of progress updates keeps its status. -/
theorem afterProgress_status (events : List JobProgress) (j : JobRec) :
    (afterProgress j events).status = j.status := by
  induction events generalizing j with
  | nil => rfl
  | cons e rest ih => exact ih (applyProgress j e)

/-- The record after a run of progress updates keeps its error field. -/
theorem afterProgress_error (events : List JobProgress) (j : JobRec) :
    (afterProgress j events).error = j.error := by
  induction events generalizing j with
  | nil => rfl
  | cons e rest ih => exact ih (applyProgress j e)

/-- C1 (amended): the stored job status never takes the intermediate
values `scraping`/`extracting`/`generating` during the background
pipeline — every snapshot stored while the orchestrator runs keeps
status `pending` (stages are recorded in `current_stage` and the
progress log); a successful run then stores `completed` (twice, with no
re-entry to an earlier status) and a failed run stores `failed`; the
caller-triggered deploy separately stores `deploying` and then either
`completed` or `failed`. -/
theorem c1_amended_status_trace (j0 : JobRec) (events : List JobProgress)
    (result : OrchestrationResult) (msg : String) (job : JobRec)
    (outcome : Except String DeploymentResult)
    (h0 : j0.status = JobStatus.pending)
    (hd : deployPrecheck job = none) :
    ((process_job j0 (.success events result)).map JobRec.status
      = List.replicate events.length JobStatus.pending
          ++ [JobStatus.completed, JobStatus.completed])
    ∧ ((process_job j0 (.failure events msg)).map JobRec.status
      = List.replicate events.length JobStatus.pending ++ [JobStatus.failed])
    ∧ ((deployJobRun job outcome).map JobRec.status
        = [JobStatus.deploying, JobStatus.completed]
      ∨ (deployJobRun job outcome).map JobRec.status
        = [JobStatus.deploying, JobStatus.failed]) := by
  refine ⟨?_, ?_, ?_⟩
  · simp only [process_job, List.map_append, progressSnapshots_map_status, h0]
    rfl
  · simp only [process_job, List.map_append, progressSnapshots_map_status, h0]
    rfl
  · simp only [deployJobRun, hd]
    cases outcome with
    | ok dep => exact Or.inl rfl
    | error e => exact Or.inr rfl

/-- Witness for C1 (amended): the theorem applied to a concrete pending
job, a concrete successful run, and a concrete deployable job. -/
theorem c1_amended_status_trace_witness :
    ((process_job (newJob "job-1" sampleRequest)
        (.success (orchestratorSuccessEvents 4 true false true) sampleResult)).map
          JobRec.status
      = List.replicate (orchestratorSuccessEvents 4 true false true).length
          JobStatus.pending ++ [JobStatus.completed, JobStatus.completed])
    ∧ ((process_job (newJob "job-1" sampleRequest)
        (.failure (orchestratorSuccessEvents 4 true false true) "Extraction failed")).map
          JobRec.status
      = List.replicate (orchestratorSuccessEvents 4 true false true).length
          JobStatus.pending ++ [JobStatus.failed])
    ∧ ((deployJobRun sampleCompletedJob (Except.ok sampleDeployment)).map JobRec.status
        = [JobStatus.deploying, JobStatus.completed]
      ∨ (deployJobRun sampleCompletedJob (Except.ok sampleDeployment)).map JobRec.status
        = [JobStatus.deploying, JobStatus.failed]) :=
  c1_amended_status_trace (newJob "job-1" sampleRequest)
    (orchestratorSuccessEvents 4 true false true) sampleResult
    "Extraction failed" sampleCompletedJob (Except.ok sampleDeployment)
    rfl rfl

/-- Counterexample to C1 as stated: a concrete successful pipeline run
(the full orchestrator event list of a four-source run) whose stored
status trace never contains the `scraping` status — the stored status
does not pass through the intermediate states on the way to
`completed`. -/
theorem c1_counterexample :
    JobStatus.scraping ∉
      (process_job (newJob "job-1" sampleRequest)
        (.success (orchestratorSuccessEvents 4 true false true) sampleResult)).map
          JobRec.status
    ∧ (process_job (newJob "job-1" sampleRequest)
        (.success (orchestratorSuccessEvents 4 true false true) sampleResult)).map
          JobRec.status
      = List.replicate 10 JobStatus.pending
          ++ [JobStatus.completed, JobStatus.completed] := by
  constructor
  · decide
  · decide

/-- C4 (amended): the invariant `error` non-null iff status `failed`
holds in every state stored by create, by the background pipeline
(success or failure), and by a first deploy attempt on a cleanly
completed job; it is not preserved by a deploy retry after a failed
deploy, because `deploy_job` never clears `error` (see the
counterexample). -/
theorem c4_amended_error_iff_failed (id : String) (request : JobCreateRequest)
    (events : List JobProgress) (result : OrchestrationResult) (msg : String)
    (job : JobRec) (outcome : Except String DeploymentResult)
    (hjs : job.status = JobStatus.completed) (hje : job.error = none) :
    errorIffFailed (newJob id request)
    ∧ (∀ j ∈ process_job (newJob id request) (.success events result), errorIffFailed j)
    ∧ (∀ j ∈ process_job (newJob id request) (.failure events msg), errorIffFailed j)
    ∧ (∀ j ∈ deployJobRun job outcome, errorIffFailed j) := by
  refine ⟨by simp [errorIffFailed, newJob], ?_, ?_, ?_⟩
  · intro j hj
    simp only [process_job, List.mem_append, List.mem_cons,
      List.not_mem_nil, or_false] at hj
    rcases hj with hj | rfl | rfl
    · have h := progressSnapshots_fields events (newJob id request) j hj
      simp [errorIffFailed, h.1, h.2, newJob]
    · simp [errorIffFailed, applyProgress, afterProgress_error, newJob]
    · simp [errorIffFailed, applyProgress, afterProgress_error, newJob]
  · intro j hj
    simp only [process_job, List.mem_append, List.mem_cons,
      List.not_mem_nil, or_false] at hj
    rcases hj with hj | rfl
    · have h := progressSnapshots_fields events (newJob id request) j hj
      simp [errorIffFailed, h.1, h.2, newJob]
    · simp [errorIffFailed]
  · intro j hj
    unfold deployJobRun at hj
    cases hpre : deployPrecheck job with
    | some m => rw [hpre] at hj; simp at hj
    | none =>
      rw [hpre] at hj
      cases outcome with
      | ok dep =>
        simp only [List.mem_cons, List.not_mem_nil, or_false] at hj
        rcases hj with rfl | rfl
        · simp [errorIffFailed, hje]
        · simp [errorIffFailed, hje]
      | error e =>
        simp only [List.mem_cons, List.not_mem_nil, or_false] at hj
        rcases hj with rfl | rfl
        · simp [errorIffFailed, hje]
        · simp [errorIffFailed]

/-- Witness for C4 (amended): the theorem applied to a concrete job id,
request, event list, outcome, and the concrete completed job. -/
theorem c4_amended_error_iff_failed_witness :
    errorIffFailed (newJob "job-1" sampleRequest)
    ∧ (∀ j ∈ process_job (newJob "job-1" sampleRequest)
        (.success (orchestratorSuccessEvents 4 true false true) sampleResult),
        errorIffFailed j)
    ∧ (∀ j ∈ process_job (newJob "job-1" sampleRequest)
        (.failure (orchestratorSuccessEvents 4 true false true) "Extraction failed"),
        errorIffFailed j)
    ∧ (∀ j ∈ deployJobRun sampleCompletedJob (Except.error "boom"), errorIffFailed j) :=
  c4_amended_error_iff_failed "job-1" sampleRequest
    (orchestratorSuccessEvents 4 true false true) sampleResult
    "Extraction failed" sampleCompletedJob (Except.error "boom") rfl rfl

/-- Counterexample to C4 as stated: after a failed deploy attempt, a
second deploy attempt is accepted (the failed attempt left no
deployment record) and stores a snapshot with status `deploying` — and,
on success, `completed` — while the stale error message is still
non-null, violating `error` non-null iff status `failed`. -/
theorem c4_counterexample :
    c4RetryTrace.map (fun j => (j.status, j.error))
      = [(JobStatus.deploying, some "Deployment failed: boom"),
         (JobStatus.completed, some "Deployment failed: boom")]
    ∧ ¬ (∀ j ∈ c4RetryTrace, errorIffFailed j) := by
  constructor
  · decide
  · decide

/-- C6: a job with no generated site has both its preview request and
its deploy request rejected with 400 `Website not yet generated` (the
deploy run stores nothing and performs no remote call); a job already
carrying a deployment has any further deploy request rejected before
any remote call — with `Already deployed` whenever the site is present,
as it is for any actually deployed job. -/
theorem c6_preview_deploy_guards (job : JobRec) :
    (job.generated_site = none →
      getJobPreview job = Except.error (400, "Website not yet generated")
      ∧ deployPrecheck job = some "Website not yet generated"
      ∧ ∀ outcome, deployJobRun job outcome = [])
    ∧ (∀ dep, job.deployment = some dep →
        (deployPrecheck job).isSome
        ∧ (∀ outcome, deployJobRun job outcome = [])
        ∧ (job.generated_site.isSome →
            deployPrecheck job = some "Already deployed")) := by
  constructor
  · intro hsite
    refine ⟨?_, ?_, ?_⟩
    · simp [getJobPreview, hsite]
    · simp [deployPrecheck, hsite]
    · intro outcome
      simp [deployJobRun, deployPrecheck, hsite]
  · intro dep hdep
    refine ⟨?_, ?_, ?_⟩
    · cases hsite : job.generated_site <;> simp [deployPrecheck, hsite, hdep]
    · intro outcome
      cases hsite : job.generated_site <;>
        simp [deployJobRun, deployPrecheck, hsite, hdep]
    · intro hs
      cases hsite : job.generated_site with
      | none => simp [hsite] at hs
      | some site => simp [deployPrecheck, hsite, hdep]

/-- Witness for C6: the guards evaluated on a concrete fresh job without
a site and on a concrete already-deployed job. -/
theorem c6_preview_deploy_guards_witness :
    (getJobPreview jobNoSite = Except.error (400, "Website not yet generated")
      ∧ deployPrecheck jobNoSite = some "Website not yet generated"
      ∧ ∀ outcome, deployJobRun jobNoSite outcome = [])
    ∧ ((deployPrecheck jobDeployed).isSome
      ∧ (∀ outcome, deployJobRun jobDeployed outcome = [])
      ∧ (jobDeployed.generated_site.isSome →
          deployPrecheck jobDeployed = some "Already deployed")) :=
  ⟨(c6_preview_deploy_guards jobNoSite).1 rfl,
   (c6_preview_deploy_guards jobDeployed).2 sampleDeployment rfl⟩

/-- C9: when project resolution, deployment creation and the readiness
wait all succeed and a custom domain was requested, a failing
domain-configuration call (any HTTP status other than 200/201) does not
fail the deployment: `deploy` still returns a successful
`DeploymentResult`, merely without DNS records. -/
theorem c9_domain_failure_nonfatal (project_name pid : String)
    (dep0 dep : VercelDeployer.DeployInfo) (domain : String) (st : Nat)
    (h1 : st ≠ 200) (h2 : st ≠ 201) :
    VercelDeployer.deploy project_name (.ok pid) (.ok dep0) (.ok dep)
        (some domain) st
      = Except.ok
          { deployment_id := dep.id
          , url := "https://" ++ dep.url.getD ""
          , production_url :=
              "https://" ++ VercelDeployer.slugify project_name ++ ".vercel.app"
          , status := dep.readyState.getD "READY"
          , dns_records := none } := by
  simp only [VercelDeployer.deploy, VercelDeployer.configure_domain, h1, h2,
    ne_eq, not_false_eq_true, and_self, if_true]
  rfl

/-- Witness for C9: a concrete deployment with a domain call answered
409. -/
theorem c9_domain_failure_nonfatal_witness :
    (409 : Nat) ≠ 200 ∧ (409 : Nat) ≠ 201
    ∧ VercelDeployer.deploy "Acme Coffee" (.ok "prj_1")
        (.ok ⟨"dpl_1", some "acme-coffee-abc.vercel.app", some "QUEUED"⟩)
        (.ok ⟨"dpl_1", some "acme-coffee-abc.vercel.app", some "READY"⟩)
        (some "acmecoffee.com") 409
      = Except.ok
          { deployment_id := "dpl_1"
          , url := "https://acme-coffee-abc.vercel.app"
          , production_url := "https://acme-coffee.vercel.app"
          , status := "READY"
          , dns_records := none } :=
  ⟨by decide, by decide,
   c9_domain_failure_nonfatal "Acme Coffee" "prj_1"
     ⟨"dpl_1", some "acme-coffee-abc.vercel.app", some "QUEUED"⟩
     ⟨"dpl_1", some "acme-coffee-abc.vercel.app", some "READY"⟩
     "acmecoffee.com" 409 (by decide) (by decide)⟩

/-- Every key of the dict after an assignment is either an old key or
the assigned key. -/
theorem pySetKey_keys_subset (jobs : List (String × JobRec)) (k : String) (v : JobRec) :
    ∀ x ∈ (JobStore.pySetKey jobs k v).map Prod.fst,
      x ∈ jobs.map Prod.fst ∨ x = k := by
  induction jobs with
  | nil => intro x hx; simp [JobStore.pySetKey] at hx; simp [hx]
  | cons p rest ih =>
    intro x hx
    obtain ⟨k', v'⟩ := p
    by_cases hk : k' = k
    · simp only [JobStore.pySetKey, if_pos hk, List.map_cons, List.mem_cons] at hx
      rcases hx with rfl | hx
      · right; rfl
      · left; simp [hx]
    · simp only [JobStore.pySetKey, if_neg hk, List.map_cons, List.mem_cons] at hx
      rcases hx with rfl | hx
      · left; simp
      · rcases ih x hx with h | h
        · left; simp [h]
        · right; exact h

/-- C10: `JobStore.create` never rejects a duplicate id — on any store
satisfying the dict invariant (unique keys) it silently overwrites the
record stored under the job's id, after which `get` returns the new
record, the store holds exactly one binding for that id (the new one),
and the key invariant still holds. -/
theorem c10_create_overwrites (jobs : List (String × JobRec)) (job : JobRec)
    (h : JobStore.uniqueKeys jobs) :
    JobStore.get (JobStore.create jobs job) job.id = some job
    ∧ (JobStore.create jobs job).filter (fun p => p.1 == job.id)
        = [(job.id, job)]
    ∧ JobStore.uniqueKeys (JobStore.create jobs job) := by
  induction jobs with
  | nil =>
    refine ⟨?_, ?_, ?_⟩
    · simp [JobStore.get, JobStore.create, JobStore.pySetKey, List.lookup]
    · simp [JobStore.create, JobStore.pySetKey]
    · simp [JobStore.uniqueKeys, JobStore.create, JobStore.pySetKey]
  | cons p rest ih =>
    obtain ⟨k, v⟩ := p
    simp only [JobStore.uniqueKeys, List.map_cons, List.nodup_cons] at h
    obtain ⟨hknot, hnodup⟩ := h
    by_cases hk : k = job.id
    · subst hk
      have hcreate :
          JobStore.create ((job.id, v) :: rest) job = (job.id, job) :: rest := by
        simp [JobStore.create, JobStore.pySetKey]
      refine ⟨?_, ?_, ?_⟩
      · simp [JobStore.get, hcreate, List.lookup]
      · have hrest : rest.filter (fun p => p.1 == job.id) = [] := by
          rw [List.filter_eq_nil_iff]
          intro a ha
          simp only [beq_iff_eq]
          intro heq
          exact hknot (List.mem_map.mpr ⟨a, ha, heq⟩)
        simp [hcreate, hrest]
      · rw [hcreate]
        simp only [JobStore.uniqueKeys, List.map_cons, List.nodup_cons]
        exact ⟨hknot, hnodup⟩
    · have ihr := ih hnodup
      have hcreate :
          JobStore.create ((k, v) :: rest) job
            = (k, v) :: JobStore.create rest job := by
        simp [JobStore.create, JobStore.pySetKey, hk]
      have hkbeq : (k == job.id) = false := beq_eq_false_iff_ne.mpr hk
      have hkbeq' : (job.id == k) = false :=
        beq_eq_false_iff_ne.mpr (Ne.symm hk)
      refine ⟨?_, ?_, ?_⟩
      · rw [JobStore.get, hcreate, List.lookup]
        rw [hkbeq']
        exact ihr.1
      · rw [hcreate, List.filter_cons_of_neg (by simp [hkbeq])]
        exact ihr.2.1
      · have hknew : k ∉ (JobStore.create rest job).map Prod.fst := by
          intro hmem
          rcases pySetKey_keys_subset rest job.id job k hmem with hmem' | hmem'
          · exact hknot hmem'
          · exact hk hmem'
        rw [hcreate]
        simp only [JobStore.uniqueKeys, List.map_cons, List.nodup_cons]
        exact ⟨hknew, ihr.2.2⟩

/-- Witness for C10: creating a job whose id already exists in a
concrete one-entry store replaces the stored record. -/
theorem c10_create_overwrites_witness :
    JobStore.uniqueKeys [("job-1", sampleCompletedJob)]
    ∧ (JobStore.get (JobStore.create [("job-1", sampleCompletedJob)] (newJob "job-1" sampleRequest)) "job-1"
        = some (newJob "job-1" sampleRequest)
      ∧ (JobStore.create [("job-1", sampleCompletedJob)] (newJob "job-1" sampleRequest)).filter
          (fun p => p.1 == "job-1")
        = [("job-1", newJob "job-1" sampleRequest)]
      ∧ JobStore.uniqueKeys
          (JobStore.create [("job-1", sampleCompletedJob)] (newJob "job-1" sampleRequest))) :=
  ⟨by simp [JobStore.uniqueKeys],
   c10_create_overwrites [("job-1", sampleCompletedJob)] (newJob "job-1" sampleRequest)
     (by simp [JobStore.uniqueKeys])⟩

/-- The fan-in loop in isolation: the records come out one per pair, in
pair order and tagged with the pair's source name, and the raw-data map
holds exactly the successful truthy payloads of those records. -/
theorem scrapeCollect_spec (pairs : List (String × ScraperService.ConnOutcome)) :
    (ScraperService.scrapeCollect pairs).1.map ScrapedSource.source
      = pairs.map Prod.fst
    ∧ (ScraperService.scrapeCollect pairs).2
      = (ScraperService.scrapeCollect pairs).1.filterMap (fun s =>
          match s.data with
          | some v => if s.success && v.truthy then some (s.source, v) else none
          | none => none) := by
  induction pairs with
  | nil => exact ⟨rfl, rfl⟩
  | cons p rest ih =>
    obtain ⟨name, o⟩ := p
    cases o with
    | raised msg =>
      refine ⟨?_, ?_⟩
      · simpa [ScraperService.scrapeCollect] using ih.1
      · simpa [ScraperService.scrapeCollect, List.filterMap_cons] using ih.2
    | returned success dat err =>
      cases dat with
      | none =>
        refine ⟨?_, ?_⟩
        · simpa [ScraperService.scrapeCollect] using ih.1
        · simpa [ScraperService.scrapeCollect, List.filterMap_cons] using ih.2
      | some v =>
        refine ⟨?_, ?_⟩
        · simpa [ScraperService.scrapeCollect] using ih.1
        · by_cases hsv : success = true ∧ v.truthy = true
          · obtain ⟨h1, h2⟩ := hsv
            simp [ScraperService.scrapeCollect, List.filterMap_cons, h1, h2,
              ih.2]
          · simp [ScraperService.scrapeCollect, List.filterMap_cons,
              Bool.and_eq_true, hsv, ih.2]

/-- C5: for every request and every combination of connector outcomes
(exception, failure record, or success), `scrape_all` produces a
`sources` list with exactly one record per source in the fixed order
google, website, facebook, instagram, and a `raw_data` map holding
exactly the tags of sources that both succeeded and returned a truthy
payload (with that payload). -/
theorem c5_scrape_all_fan_in (request : JobCreateRequest)
    (google website facebook instagram : ScraperService.ConnOutcome) :
    (ScraperService.scrape_all request google website facebook instagram).sources.map
        ScrapedSource.source
      = ["google", "website", "facebook", "instagram"]
    ∧ (ScraperService.scrape_all request google website facebook instagram).raw_data
      = (ScraperService.scrape_all request google website facebook
          instagram).sources.filterMap (fun s =>
            match s.data with
            | some v => if s.success && v.truthy then some (s.source, v) else none
            | none => none) := by
  simp only [ScraperService.scrape_all]
  generalize (if optStrTruthy request.location then google
    else ScraperService.empty_result) = o1
  generalize (if optStrTruthy request.website_url then website
    else ScraperService.empty_result) = o2
  generalize (if optStrTruthy request.facebook_url then facebook
    else ScraperService.empty_result) = o3
  generalize (if optStrTruthy request.instagram_url then instagram
    else ScraperService.empty_result) = o4
  have h := scrapeCollect_spec
    (List.zip ScraperService.source_names [o1, o2, o3, o4])
  refine ⟨?_, h.2⟩
  rw [h.1]
  rfl

/-- The simple-field merge block leaves the quality score untouched. -/
theorem mergeSimpleFields_score (d : ExtractedBusinessData)
    (g : List (String × JVal)) :
    (AIEngineService.mergeSimpleFields d g).data_quality_score
      = d.data_quality_score := by
  simp only [AIEngineService.mergeSimpleFields]
  split <;> split <;> split <;> rfl

/-- The services merge block leaves the quality score untouched. -/
theorem servicesStep_score (d d' : ExtractedBusinessData)
    (g : List (String × JVal))
    (h : AIEngineService.servicesStep d g = .ok d') :
    d'.data_quality_score = d.data_quality_score := by
  unfold AIEngineService.servicesStep at h
  split at h
  · split at h
    · split at h
      · exact absurd h (by simp)
      · rw [Except.ok.injEq] at h
        subst h
        split <;> rfl
    · rw [Except.ok.injEq] at h
      subst h
      rfl
  · rw [Except.ok.injEq] at h
    subst h
    rfl

/-- The USP merge block leaves the quality score untouched. -/
theorem uspsStep_score (d : ExtractedBusinessData) (g : List (String × JVal)) :
    (AIEngineService.uspsStep d g).data_quality_score = d.data_quality_score := by
  simp only [AIEngineService.uspsStep]
  split <;> rfl

/-- The record `_merge_gap_data` leaves in the caller's hands carries
either the untouched quality score (non-dict response or a raised
merge) or the bumped one. -/
theorem merge_gap_data_score (d : ExtractedBusinessData) (gap : JVal) :
    (AIEngineService.merge_gap_data d gap).1.data_quality_score
        = d.data_quality_score
    ∨ (AIEngineService.merge_gap_data d gap).1.data_quality_score
        = min 100 (d.data_quality_score + 15) := by
  unfold AIEngineService.merge_gap_data
  cases gap with
  | jobj gap_data =>
    cases hs : AIEngineService.servicesStep
        (AIEngineService.mergeSimpleFields d gap_data) gap_data with
    | error e =>
      left
      simp only [hs]
      exact mergeSimpleFields_score d gap_data
    | ok d4 =>
      right
      simp only [hs]
      have hscore : (AIEngineService.uspsStep d4 gap_data).data_quality_score
          = d.data_quality_score := by
        rw [uspsStep_score, servicesStep_score _ _ _ hs,
          mergeSimpleFields_score]
      simp only [hscore]
  | jnull => exact Or.inl rfl
  | jbool b => exact Or.inl rfl
  | jnum n => exact Or.inl rfl
  | jstr s => exact Or.inl rfl
  | jarr xs => exact Or.inl rfl

/-- C7: on every path of `fill_gaps` — the short-circuit, a raised model
call, a raised merge, or a completed merge — the quality score of the
returned profile never decreases relative to the input and never
exceeds 100, provided the input score lies in 0–100. -/
theorem c7_fill_gaps_score_bounds (jloads : String → Option JVal)
    (callResult : Except String String) (data : ExtractedBusinessData)
    (h0 : 0 ≤ data.data_quality_score) (h100 : data.data_quality_score ≤ 100) :
    data.data_quality_score
        ≤ (AIEngineService.fill_gaps jloads callResult data).data_quality_score
    ∧ (AIEngineService.fill_gaps jloads callResult data).data_quality_score
        ≤ 100 := by
  unfold AIEngineService.fill_gaps
  split
  · exact ⟨le_refl _, h100⟩
  · cases callResult with
    | error e => exact ⟨le_refl _, h100⟩
    | ok content =>
      rcases merge_gap_data_score data
          (AIEngineService.parse_json_response jloads content) with h | h
      · rw [h]
        exact ⟨le_refl _, h100⟩
      · rw [h]
        constructor <;> omega

/-- Witness for C7: the bounds evaluated on the concrete low-quality
profile with a model call that returned a non-JSON response. -/
theorem c7_fill_gaps_score_bounds_witness :
    (0 : Int) ≤ sampleData.data_quality_score
    ∧ sampleData.data_quality_score ≤ 100
    ∧ (sampleData.data_quality_score
        ≤ (AIEngineService.fill_gaps (fun _ => none) (Except.ok "no json here")
            sampleData).data_quality_score
      ∧ (AIEngineService.fill_gaps (fun _ => none) (Except.ok "no json here")
            sampleData).data_quality_score ≤ 100) :=
  ⟨by decide, by decide,
   c7_fill_gaps_score_bounds (fun _ => none) (Except.ok "no json here")
     sampleData (by decide) (by decide)⟩

/-- C8: once the quality score is at least 70 and `missing_fields` is
empty, `fill_gaps` short-circuits and returns its input identically,
without consulting the model call; applying it again (with any decoder
and any call outcome) therefore returns the same value. -/
theorem c8_fill_gaps_idempotent (jloads jloads' : String → Option JVal)
    (callResult callResult' : Except String String)
    (data : ExtractedBusinessData)
    (h70 : (70 : Int) ≤ data.data_quality_score)
    (hmf : data.missing_fields = []) :
    AIEngineService.fill_gaps jloads callResult data = data
    ∧ AIEngineService.fill_gaps jloads' callResult'
        (AIEngineService.fill_gaps jloads callResult data)
      = AIEngineService.fill_gaps jloads callResult data := by
  have hfix : ∀ (jl : String → Option JVal) (c : Except String String),
      AIEngineService.fill_gaps jl c data = data := by
    intro jl c
    unfold AIEngineService.fill_gaps
    rw [if_pos ⟨h70, hmf⟩]
  refine ⟨hfix jloads callResult, ?_⟩
  rw [hfix jloads callResult, hfix jloads' callResult']

/-- Witness for C8: the short-circuit evaluated on the concrete
high-quality profile. -/
theorem c8_fill_gaps_idempotent_witness :
    (70 : Int) ≤ sampleRichData.data_quality_score
    ∧ sampleRichData.missing_fields = []
    ∧ (AIEngineService.fill_gaps (fun _ => none) (Except.error "boom")
          sampleRichData = sampleRichData
      ∧ AIEngineService.fill_gaps (fun _ => some (.jobj [])) (Except.ok "ok")
          (AIEngineService.fill_gaps (fun _ => none) (Except.error "boom")
            sampleRichData)
        = AIEngineService.fill_gaps (fun _ => none) (Except.error "boom")
            sampleRichData) :=
  ⟨by decide, by decide,
   c8_fill_gaps_idempotent (fun _ => none) (fun _ => some (.jobj []))
     (Except.error "boom") (Except.ok "ok") sampleRichData
     (by decide) (by decide)⟩

/-- With a decoder that fails on every string (an unparseable response
and an unsalvageable truncation), `_parse_json_response` returns the
empty object on every input, never raising. -/
theorem parse_json_response_undecodable (content : String) :
    AIEngineService.parse_json_response (fun _ => none) content
      = JVal.jobj [] := by
  unfold AIEngineService.parse_json_response
  cases h : pyRfindChar '\x7d' (pyStrip (AIEngineService.stripCodeFences content)) with
  | none => simp [h]
  | some last_brace =>
    by_cases hlb : last_brace > 0
    · simp [h, hlb]
    · simp [h, hlb]

/-- The empty extracted dict converts to the defaulted profile, whatever
the scrape result. -/
theorem to_business_data_empty (scrape_result : ScrapeResult) :
    AIEngineService.to_business_data (JVal.jobj []) scrape_result
      = Except.ok (emptyObjProfile scrape_result) := rfl

/-- C2 (amended): `extract_business_data` never raises; when the model
call itself raises it falls back to the minimal profile (business name
only, quality score 0, `missing_fields = ["all"]`); but when the call
returns a malformed/unparseable response it instead returns the
defaulted profile obtained from the empty parse — placeholder name
`"Business"`, quality score 50 and an empty `missing_fields` list — not
the minimal profile. -/
theorem c2_amended_extract_fallback (business_name msg content : String)
    (scrape_result : ScrapeResult) :
    AIEngineService.extract_business_data (fun _ => none) (Except.error msg)
        scrape_result business_name
      = AIEngineService.minimalProfile business_name
    ∧ AIEngineService.extract_business_data (fun _ => none) (Except.ok content)
        scrape_result business_name
      = emptyObjProfile scrape_result := by
  constructor
  · rfl
  · unfold AIEngineService.extract_business_data
    dsimp only
    rw [parse_json_response_undecodable, to_business_data_empty]

/-- Counterexample to C2 as stated: a model response that is not JSON at
all (no code fence, no closing brace, undecodable) does not produce the
minimal profile — extraction returns the defaulted profile with
placeholder name `"Business"`, quality score 50 and no recorded missing
fields instead of quality score 0 and `["all"]`. -/
theorem c2_counterexample :
    AIEngineService.extract_business_data (fun _ => none)
        (Except.ok "no json here") ⟨[], []⟩ "Acme Coffee"
      ≠ AIEngineService.minimalProfile "Acme Coffee"
    ∧ (AIEngineService.extract_business_data (fun _ => none)
        (Except.ok "no json here") ⟨[], []⟩ "Acme Coffee").business_name
      = "Business"
    ∧ (AIEngineService.extract_business_data (fun _ => none)
        (Except.ok "no json here") ⟨[], []⟩ "Acme Coffee").data_quality_score
      = 50
    ∧ (AIEngineService.extract_business_data (fun _ => none)
        (Except.ok "no json here") ⟨[], []⟩ "Acme Coffee").missing_fields
      = [] := by
  refine ⟨?_, by decide, by decide, by decide⟩
  decide

/-- C3 evaluation: `_merge_gap_data` on the concrete profile whose
recorded missing fields are `tagline` (which the gap response fills)
and `logo_url` (which it does not) keeps the now-populated `tagline`
listed as missing and silently drops the still-absent `logo_url` — the
refilter keeps exactly the truthy attributes, the opposite of the
documented meaning of `missing_fields`. -/
theorem c3_merge_keeps_populated_field :
    (AIEngineService.merge_gap_data sampleData c3Gap).1.tagline
      = some "Your neighborhood espresso bar"
    ∧ (AIEngineService.merge_gap_data sampleData c3Gap).1.missing_fields
      = ["tagline"]
    ∧ (AIEngineService.merge_gap_data sampleData c3Gap).2 = none := by
  refine ⟨by decide, by decide, by decide⟩
